import Mathlib

/-!
Verification of the `celery-unique` library: a shallow embedding of
`src/celery_unique/core.py`, `src/celery_unique/backends.py` and the legacy
`src/celery_unique.py`, together with theorems settling the specification
claims about key derivation, the uniqueness-qualification predicate, dispatch
sequencing, backend behaviour and TTL computation.

Python `datetime` values are modelled as absolute instants measured in integer
microseconds (the resolution of `datetime`); the difference of two aware
datetimes is then an integer number of microseconds, `total_seconds()` divides
by 10^6 and `int(...)` truncates toward zero, which is `Int.tdiv` by 10^6.
-/

namespace CeleryUnique

/-- A Python `datetime` instant, in microseconds. -/
abbrev Instant := Int

/-- The `expires` option of `apply_async`: either a `datetime.datetime`
(absolute instant) or a plain number of seconds. -/
inductive Expires where
  | dt (t : Instant)
  | num (s : Int)
deriving DecidableEq, Repr

/-- The scheduling options this library inspects out of the open keyword-option
bag given to `apply_async`: `eta`, `countdown` and `expires`.  A field being
`none` models the key being absent from the options dict. -/
structure TaskOptions where
  eta : Option Instant := none
  countdown : Option Int := none
  expires : Option Expires := none
deriving DecidableEq, Repr

/-- Microseconds in one second: `total_seconds()` of a `timedelta` whose length
is `d` microseconds is `d / 10^6`, and `int(...)` of it truncates toward
zero. -/
def usPerSec : Int := 1000000

/-- Embedding of `int((t - now).total_seconds())` for two instants, as the source computes
the second count of a datetime difference: truncation toward zero. -/
def wholeSecondsBetween (t now : Instant) : Int :=
  Int.tdiv (t - now) usPerSec

/-- Embedding of `UniqueTaskMixin._make_ttl_for_unique_task_record` from
`src/celery_unique/core.py` (lines 125-186).  The current time, implicit in
the source via `datetime.datetime.now(...)`, is the explicit `now` argument;
subtracting two aware datetimes is timezone-independent, so only the instant
matters. -/
def _make_ttl_for_unique_task_record (now : Instant) (task_options : TaskOptions) : Int :=
  -- Set a default TTL as 1 second (in case actual TTL already occurred)
  let ttl_seconds : Int := 1
  let ttl_seconds : Int :=
    match task_options.eta with
    | some eta =>
      -- the difference between the ETA and now (relative to the ETA's timezone)
      wholeSecondsBetween eta now
    | none =>
      match task_options.countdown with
      | some countdown => countdown
      | none => ttl_seconds
  let ttl_seconds : Int :=
    match task_options.expires with
    | some expires =>
      let seconds_until_expiry : Int :=
        match expires with
        | Expires.dt t =>
          -- the difference between the expiry datetime and now
          wholeSecondsBetween t now
        | Expires.num s => s
      if seconds_until_expiry < ttl_seconds then seconds_until_expiry else ttl_seconds
    | none => ttl_seconds
  if ttl_seconds ≤ 0 then 1 else ttl_seconds

namespace Legacy

/-- Embedding of `UniqueTaskMixin._make_ttl_for_unique_task_record` from the legacy module
`src/celery_unique.py` (lines 109-161), embedded independently of the new
implementation so the two can be compared. -/
def _make_ttl_for_unique_task_record (now : Instant) (task_options : TaskOptions) : Int :=
  let ttl_seconds : Int := 1
  let ttl_seconds : Int :=
    match task_options.eta with
    | some eta => wholeSecondsBetween eta now
    | none =>
      match task_options.countdown with
      | some countdown => countdown
      | none => ttl_seconds
  let ttl_seconds : Int :=
    match task_options.expires with
    | some expires =>
      let seconds_until_expiry : Int :=
        match expires with
        | Expires.dt t => wholeSecondsBetween t now
        | Expires.num s => s
      if seconds_until_expiry < ttl_seconds then seconds_until_expiry else ttl_seconds
    | none => ttl_seconds
  if ttl_seconds ≤ 0 then 1 else ttl_seconds

end Legacy

/-- The TTL policy as the specification words it (C1): a base of
`eta - now` in whole seconds when `eta` is present, else `countdown` when
present, else 1; the `expires` value in seconds replaces the base when
strictly smaller; the result is clamped to 1 when it is ≤ 0. -/
def ttlPolicyFromSpec (now : Instant) (o : TaskOptions) : Int :=
  let base : Int :=
    match o.eta, o.countdown with
    | some eta, _ => wholeSecondsBetween eta now
    | none, some c => c
    | none, none => 1
  let expirySeconds : Option Int :=
    match o.expires with
    | some (Expires.dt t) => some (wholeSecondsBetween t now)
    | some (Expires.num s) => some s
    | none => none
  let clamped : Int :=
    match expirySeconds with
    | some e => if e < base then e else base
    | none => base
  max clamped 1

/-- Positional arguments passed to a task (and to its key generator). -/
abbrev Args := List String

/-- Keyword arguments passed to a task (and to its key generator). -/
abbrev Kwargs := List (String × String)

/-- A configured `unique_key` callable: a key-generator receiving the same
positional and keyword arguments the task will receive. -/
abbrev KeyGen := Args → Kwargs → String

/-- The constant `UNIQUE_KEY_PREFIX` from `src/celery_unique/core.py` line 8. -/
def UNIQUE_KEY_PREFIX : String := "celery_unique"

/-- Embedding of `UniqueTaskMixin.make_key` from `src/celery_unique/core.py` (lines
84-123): `'{prefix}:{task_name}:{unique_key}'.format(...)` with the prefix
constant, the task's registered name, and the key generator applied to the
callback arguments.  (`__func__` unwrapping is a Python method-binding detail;
the generator is simply a function here.) -/
def make_key (name : String) (unique_key : KeyGen) (callback_args : Args)
    (callback_kwargs : Kwargs) : String :=
  UNIQUE_KEY_PREFIX ++ ":" ++ name ++ ":" ++ unique_key callback_args callback_kwargs

/-- Python dict lookup `d.get(k, None)` on an association-list model. -/
def dictGet (d : List (String × String)) (k : String) : Option String :=
  (d.find? (fun p => p.1 = k)).map Prod.snd

/-- Python dict assignment `d[k] = v`: overwrite the extant entry or append. -/
def dictSet : List (String × String) → String → String → List (String × String)
  | [], k, v => [(k, v)]
  | p :: rest, k, v => if p.1 = k then (k, v) :: rest else p :: dictSet rest k v

/-- Python dict removal `d.pop(k, None)` (also Redis `DEL`): drop the entry
for `k` when present; a no-op otherwise. -/
def dictPop (d : List (String × String)) (k : String) : List (String × String) :=
  d.filter (fun p => p.1 ≠ k)

/-- The dict invariant: every key occurs at most once in the store. -/
def keysNodup (d : List (String × String)) : Prop :=
  (d.map Prod.fst).Nodup

/-- The class `InMemoryBackend` from `src/celery_unique/backends.py` (lines 62-83): a
process-local `tasks` dict. -/
structure InMemoryBackend where
  tasks : List (String × String)
deriving DecidableEq, Repr

/-- Method `InMemoryBackend.get_task_id`: `self.tasks.get(key, None)`. -/
def InMemoryBackend.get_task_id (b : InMemoryBackend) (key : String) : Option String :=
  dictGet b.tasks key

/-- Method `InMemoryBackend.revoke_extant_task`: `self.tasks.pop(key, None)`. -/
def InMemoryBackend.revoke_extant_task (b : InMemoryBackend) (key : String) : InMemoryBackend :=
  ⟨dictPop b.tasks key⟩

/-- Method `InMemoryBackend.create_task_record`: `self.tasks[key] = task_id`; the
`ttl` parameter (optional, default `None`) is never read. -/
def InMemoryBackend.create_task_record (b : InMemoryBackend) (key task_id : String)
    (ttl : Option Int) : InMemoryBackend :=
  ⟨dictSet b.tasks key task_id⟩

/-- The Redis client as this library uses it: a key/value store; values are
byte strings, modelled as the text they decode to, with `""` playing the
falsy empty byte string `b''`. -/
structure RedisClient where
  data : List (String × String)
deriving DecidableEq, Repr

/-- Operation `redis_client.get(key)`: the stored bytes, or `None` when absent. -/
def RedisClient.get (c : RedisClient) (key : String) : Option String :=
  dictGet c.data key

/-- Operation `redis_client.delete(key)`: removes the key; no-op when absent. -/
def RedisClient.delete (c : RedisClient) (key : String) : RedisClient :=
  ⟨dictPop c.data key⟩

/-- Operation `redis_client.set(key, value, ex=ttl)`: stores/overwrites the value (the
expiry itself is enforced inside Redis, outside this library's code). -/
def RedisClient.set (c : RedisClient) (key value : String) (ex : Int) : RedisClient :=
  ⟨dictSet c.data key value⟩

/-- The class `RedisBackend` from `src/celery_unique/backends.py` (lines 41-59). -/
structure RedisBackend where
  redis_client : RedisClient
deriving DecidableEq, Repr

/-- Method `RedisBackend.get_task_id` (lines 51-53):
`task_id = self.redis_client.get(key); return task_id.decode() if task_id
else None` — both `None` and the empty byte string are falsy. -/
def RedisBackend.get_task_id (b : RedisBackend) (key : String) : Option String :=
  match b.redis_client.get key with
  | some task_id => if task_id = "" then none else some task_id
  | none => none

/-- Method `RedisBackend.revoke_extant_task` (lines 55-56): `self.redis_client.delete(key)`. -/
def RedisBackend.revoke_extant_task (b : RedisBackend) (key : String) : RedisBackend :=
  ⟨b.redis_client.delete key⟩

/-- Method `RedisBackend.create_task_record` (lines 58-59):
`self.redis_client.set(key, task_id, ex=ttl)`. -/
def RedisBackend.create_task_record (b : RedisBackend) (key task_id : String)
    (ttl : Int) : RedisBackend :=
  ⟨b.redis_client.set key task_id ttl⟩

/-- The `BaseBackend` capability set of `src/celery_unique/backends.py`
(lines 1-38), as an explicit interface over a backend-state type, so the
dispatch logic is written once for every conforming variant. -/
structure Backend (σ : Type) where
  get_task_id : σ → String → Option String
  revoke_extant_task : σ → String → σ
  create_task_record : σ → String → String → Int → σ

/-- The `InMemoryBackend` variant seen through the `BaseBackend` interface. -/
def inMemoryBackendAPI : Backend InMemoryBackend where
  get_task_id := InMemoryBackend.get_task_id
  revoke_extant_task := InMemoryBackend.revoke_extant_task
  create_task_record := fun b key task_id ttl => b.create_task_record key task_id (some ttl)

/-- The `RedisBackend` variant seen through the `BaseBackend` interface. -/
def redisBackendAPI : Backend RedisBackend where
  get_task_id := RedisBackend.get_task_id
  revoke_extant_task := RedisBackend.revoke_extant_task
  create_task_record := RedisBackend.create_task_record

/-- The observable operations a dispatch call performs, in order: backend
lookups, external task revocations (`self.app.AsyncResult(task_id).revoke()`),
backend deletes, the delegation to `celery.Task.apply_async` (which returns
the new task id), and backend record writes. -/
inductive Event where
  | backendGet (key : String) (result : Option String)
  | extRevoke (task_id : String)
  | backendDelete (key : String)
  | publish (task_id : String)
  | backendCreate (key : String) (task_id : String) (ttl : Int)
deriving DecidableEq, Repr

/-- Events belonging to the lookup/revoke/delete phase (step 2 of the dispatch
sequencing), as opposed to the publish and the record write. -/
def Event.isLookupOrRevoke : Event → Bool
  | Event.backendGet _ _ => true
  | Event.extRevoke _ => true
  | Event.backendDelete _ => true
  | _ => false

/-- The per-task configuration of `UniqueTaskMixin`: the registered task
name, the `unique_key` generator (`none` models the non-callable default
`None`), and the configured backend state (`none` models `unique_backend =
None`). -/
structure Task (σ : Type) where
  name : String
  unique_key : Option KeyGen
  unique_backend : Option σ

/-- Embedding of `UniqueTaskMixin._handle_as_unique` from `src/celery_unique/core.py`
(lines 60-70): `callable(self.unique_key) and ('eta' in options or
'countdown' in options) and self.unique_backend is not None`. -/
def _handle_as_unique {σ : Type} (t : Task σ) (options : TaskOptions) : Bool :=
  t.unique_key.isSome
    && (options.eta.isSome || options.countdown.isSome)
    && t.unique_backend.isSome

/-- Embedding of `UniqueTaskMixin._revoke_extant_task` from `src/celery_unique/core.py`
(lines 72-82): look the key up in the backend; when a task id is recorded,
revoke that task externally, then delete the backend record.  Returns the new
backend state and the trace of operations performed. -/
def _revoke_extant_task {σ : Type} (api : Backend σ) (b : σ) (key : String) :
    σ × List Event :=
  match api.get_task_id b key with
  | some task_id =>
    (api.revoke_extant_task b key,
     [Event.backendGet key (some task_id), Event.extRevoke task_id,
      Event.backendDelete key])
  | none => (b, [Event.backendGet key none])

/-- Embedding of `UniqueTaskMixin.apply_async` from `src/celery_unique/core.py` (lines
16-58).  `now` makes the implicit clock explicit and `new_task_id` is the task
id of the `AsyncResult` the underlying `celery.Task.apply_async` returns.
Returns the result's task id, the task with its updated backend state, and
the ordered trace of observable operations. -/
def apply_async {σ : Type} (api : Backend σ) (t : Task σ) (args : Args)
    (kwargs : Kwargs) (options : TaskOptions) (now : Instant)
    (new_task_id : String) : String × Task σ × List Event :=
  if hu : _handle_as_unique t options = true then
    have hkey : t.unique_key.isSome = true := by
      unfold _handle_as_unique at hu
      simp only [Bool.and_eq_true] at hu
      exact hu.1.1
    have hback : t.unique_backend.isSome = true := by
      unfold _handle_as_unique at hu
      simp only [Bool.and_eq_true] at hu
      exact hu.2
    -- Generate the unique key and revoke any task that shares the same key
    let key := make_key t.name (t.unique_key.get hkey) args kwargs
    let step2 := _revoke_extant_task api (t.unique_backend.get hback) key
    -- Pass the task along to Celery for publishing and intercept the result
    let rv := new_task_id
    -- Inform the backend of this task, with a TTL matching its schedule
    let ttl := _make_ttl_for_unique_task_record now options
    let b2 := api.create_task_record step2.1 key rv ttl
    (rv, ⟨t.name, t.unique_key, some b2⟩,
     step2.2 ++ [Event.publish rv, Event.backendCreate key rv ttl])
  else
    (new_task_id, t, [Event.publish new_task_id])

end CeleryUnique

namespace CeleryUnique

theorem dictGet_none_iff (d : List (String × String)) (k : String) :
    dictGet d k = none ↔ ∀ p ∈ d, p.1 ≠ k := by
  simp [dictGet, List.find?_eq_none]

theorem dictGet_dictSet_self (d : List (String × String)) (k v : String) :
    dictGet (dictSet d k v) k = some v := by
  induction d with
  | nil => simp [dictGet, dictSet]
  | cons p rest ih =>
    by_cases h : p.1 = k
    · simp [dictSet, dictGet, h]
    · simpa [dictSet, dictGet, h] using ih

theorem dictPop_no_key (d : List (String × String)) (k : String) :
    ∀ p ∈ dictPop d k, p.1 ≠ k := by
  intro p hp
  have := List.of_mem_filter hp
  simpa using this

theorem dictGet_dictPop_self (d : List (String × String)) (k : String) :
    dictGet (dictPop d k) k = none :=
  (dictGet_none_iff _ _).mpr (dictPop_no_key d k)

theorem dictGet_cons (p : String × String) (rest : List (String × String))
    (k : String) :
    dictGet (p :: rest) k = if p.1 = k then some p.2 else dictGet rest k := by
  by_cases h : p.1 = k <;> simp [dictGet, List.find?_cons, h]

theorem dictPop_cons_pos (p : String × String) (rest : List (String × String))
    (k : String) (hp : p.1 = k) : dictPop (p :: rest) k = dictPop rest k := by
  simp [dictPop, List.filter_cons, hp]

theorem dictPop_cons_neg (p : String × String) (rest : List (String × String))
    (k : String) (hp : ¬p.1 = k) : dictPop (p :: rest) k = p :: dictPop rest k := by
  simp [dictPop, List.filter_cons, hp]

theorem dictGet_dictPop_other (d : List (String × String)) (k k' : String)
    (h : k ≠ k') : dictGet (dictPop d k') k = dictGet d k := by
  induction d with
  | nil => simp [dictPop]
  | cons p rest ih =>
    by_cases hp : p.1 = k'
    · have hpk : ¬p.1 = k := fun hk => h (hk ▸ hp)
      rw [dictPop_cons_pos p rest k' hp, ih, dictGet_cons]
      simp [hpk]
    · rw [dictPop_cons_neg p rest k' hp, dictGet_cons, dictGet_cons, ih]

theorem dictSet_of_no_key (d : List (String × String)) (k v : String)
    (h : ∀ p ∈ d, p.1 ≠ k) : dictSet d k v = d ++ [(k, v)] := by
  induction d with
  | nil => simp [dictSet]
  | cons p rest ih =>
    have hp : p.1 ≠ k := h p (List.mem_cons_self p rest)
    have hrest : ∀ q ∈ rest, q.1 ≠ k := fun q hq => h q (List.mem_cons_of_mem p hq)
    simp [dictSet, hp, ih hrest]

theorem filter_dictSet_self (d : List (String × String)) (k v : String)
    (h : ∀ p ∈ d, p.1 ≠ k) :
    (dictSet d k v).filter (fun p => p.1 = k) = [(k, v)] := by
  rw [dictSet_of_no_key d k v h]
  rw [List.filter_append]
  have hd : d.filter (fun p => p.1 = k) = [] := by
    rw [List.filter_eq_nil_iff]
    intro p hp
    simpa using h p hp
  simp [hd]

theorem mem_keys_dictSet (d : List (String × String)) (k v a : String)
    (ha : a ∈ (dictSet d k v).map Prod.fst) : a ∈ d.map Prod.fst ∨ a = k := by
  induction d with
  | nil =>
    simp [dictSet] at ha
    exact Or.inr ha
  | cons p rest ih =>
    by_cases hp : p.1 = k
    · simp [dictSet, hp] at ha
      rcases ha with ha | ha
      · exact Or.inr ha
      · exact Or.inl (by simp [ha])
    · simp [dictSet, hp] at ha
      rcases ha with ha | ha
      · exact Or.inl (by simp [ha])
      · rcases ih (by simpa using ha) with h | h
        · exact Or.inl (by simp at h ⊢; exact Or.inr h)
        · exact Or.inr h

theorem keysNodup_dictPop (d : List (String × String)) (k : String)
    (h : keysNodup d) : keysNodup (dictPop d k) :=
  ((List.filter_sublist d).map Prod.fst).nodup h

theorem keysNodup_dictSet (d : List (String × String)) (k v : String)
    (h : keysNodup d) : keysNodup (dictSet d k v) := by
  induction d with
  | nil => simp [dictSet, keysNodup]
  | cons p rest ih =>
    unfold keysNodup at h
    simp only [List.map_cons, List.nodup_cons] at h
    by_cases hp : p.1 = k
    · unfold keysNodup
      simp only [dictSet, hp, if_true, List.map_cons, List.nodup_cons]
      exact ⟨by rw [← hp]; exact h.1, h.2⟩
    · unfold keysNodup
      simp only [dictSet, hp, if_false, List.map_cons, List.nodup_cons]
      refine ⟨?_, ih h.2⟩
      intro hmem
      rcases mem_keys_dictSet rest k v p.1 hmem with hm | hm
      · exact h.1 hm
      · exact hp hm

end CeleryUnique

namespace CeleryUnique

/-- C1: the TTL computation returns the spec's base / expiry-clamp / floor
value, and the returned TTL is always ≥ 1. -/
theorem make_ttl_matches_spec_and_is_positive (now : Instant) (o : TaskOptions) :
    _make_ttl_for_unique_task_record now o = ttlPolicyFromSpec now o ∧
    1 ≤ _make_ttl_for_unique_task_record now o := by
  unfold _make_ttl_for_unique_task_record ttlPolicyFromSpec
  rcases o with ⟨eta, countdown, expires⟩
  rcases eta with _ | eta <;> rcases countdown with _ | c <;>
    rcases expires with _ | (⟨t⟩ | ⟨s⟩) <;> simp only [le_max_iff, le_refl, or_true] <;>
    constructor <;> omega

/-- C9: the legacy module's TTL computation and the new core module's TTL
computation agree on every scheduling-options value and current time. -/
theorem legacy_ttl_eq_core_ttl (now : Instant) (o : TaskOptions) :
    Legacy._make_ttl_for_unique_task_record now o =
      _make_ttl_for_unique_task_record now o := rfl

/-- C2: a dispatch call is handled as unique iff the task's key generator is
configured and callable, `eta` or `countdown` was supplied, and a backend is
configured; when the predicate is false the call is a pure pass-through: the
result is the underlying dispatch's task id, the task configuration and its
backend state are unchanged, and the trace holds the publish alone — zero
backend operations. -/
theorem unique_qualification_and_passthrough {σ : Type} (api : Backend σ)
    (t : Task σ) (args : Args) (kwargs : Kwargs) (o : TaskOptions)
    (now : Instant) (tid : String) :
    (_handle_as_unique t o = true ↔
      (t.unique_key.isSome = true ∧
        (o.eta.isSome = true ∨ o.countdown.isSome = true) ∧
        t.unique_backend.isSome = true)) ∧
    (_handle_as_unique t o = false →
      apply_async api t args kwargs o now tid = (tid, t, [Event.publish tid])) := by
  constructor
  · unfold _handle_as_unique
    simp [Bool.and_eq_true, Bool.or_eq_true, and_assoc]
  · intro h
    unfold apply_async
    rw [dif_neg (by simp [h])]

/-- Witness for C2: a task without a key generator, called with a countdown,
passes straight through. -/
theorem unique_qualification_and_passthrough_witness :
    _handle_as_unique (Task.mk "A_TASK_NAME" none (some (InMemoryBackend.mk [])))
        (TaskOptions.mk none (some 100) none) = false ∧
    apply_async inMemoryBackendAPI
        (Task.mk "A_TASK_NAME" none (some (InMemoryBackend.mk []))) [] []
        (TaskOptions.mk none (some 100) none) 0 "task-1" =
      ("task-1", Task.mk "A_TASK_NAME" none (some (InMemoryBackend.mk [])),
       [Event.publish "task-1"]) :=
  ⟨rfl,
   (unique_qualification_and_passthrough inMemoryBackendAPI
      (Task.mk "A_TASK_NAME" none (some (InMemoryBackend.mk []))) [] []
      (TaskOptions.mk none (some 100) none) 0 "task-1").2 rfl⟩

theorem revoke_trace_lookup {σ : Type} (api : Backend σ) (b : σ) (key : String) :
    ∀ e ∈ (_revoke_extant_task api b key).2, e.isLookupOrRevoke = true := by
  unfold _revoke_extant_task
  cases api.get_task_id b key <;> simp [Event.isLookupOrRevoke]

/-- C3: for every qualifying dispatch the trace is `pre ++ [publish tid,
record-write]` where `pre` holds only lookup/revoke/delete events: the
existing-record lookup and any revoke/delete strictly precede the delegation
to the underlying dispatch primitive, and the backend record write — carrying
the task id the publish returned — happens only after it. -/
theorem unique_dispatch_sequencing {σ : Type} (api : Backend σ) (t : Task σ)
    (args : Args) (kwargs : Kwargs) (o : TaskOptions) (now : Instant)
    (tid : String) (h : _handle_as_unique t o = true) :
    ∃ key pre,
      (apply_async api t args kwargs o now tid).2.2 =
        pre ++ [Event.publish tid,
          Event.backendCreate key tid (_make_ttl_for_unique_task_record now o)] ∧
      ∀ e ∈ pre, e.isLookupOrRevoke = true := by
  have hkey : t.unique_key.isSome = true := by
    unfold _handle_as_unique at h
    simp only [Bool.and_eq_true] at h
    exact h.1.1
  have hback : t.unique_backend.isSome = true := by
    unfold _handle_as_unique at h
    simp only [Bool.and_eq_true] at h
    exact h.2
  refine ⟨make_key t.name (t.unique_key.get hkey) args kwargs,
    (_revoke_extant_task api (t.unique_backend.get hback)
      (make_key t.name (t.unique_key.get hkey) args kwargs)).2, ?_,
    revoke_trace_lookup api _ _⟩
  unfold apply_async
  rw [dif_pos h]

/-- Witness for C3 at a concrete qualifying call with an empty store. -/
theorem unique_dispatch_sequencing_witness :
    ∃ key pre,
      (apply_async inMemoryBackendAPI
          (Task.mk "A_TASK_NAME" (some (fun _ _ => "A_UNIQUE_KEY"))
            (some (InMemoryBackend.mk []))) [] []
          (TaskOptions.mk none (some 100) none) 0 "task-2").2.2 =
        pre ++ [Event.publish "task-2",
          Event.backendCreate key "task-2"
            (_make_ttl_for_unique_task_record 0
              (TaskOptions.mk none (some 100) none))] ∧
      ∀ e ∈ pre, e.isLookupOrRevoke = true :=
  unique_dispatch_sequencing inMemoryBackendAPI
    (Task.mk "A_TASK_NAME" (some (fun _ _ => "A_UNIQUE_KEY"))
      (some (InMemoryBackend.mk []))) [] []
    (TaskOptions.mk none (some 100) none) 0 "task-2" rfl

/-- C4: `make_key` is pure and deterministic and returns exactly the
colon-joined `<prefix>:<task_name>:<fragment>` layout, with the fixed
namespace prefix and the key generator applied to the task's own positional
and keyword arguments. -/
theorem make_key_layout_and_determinism (name : String) (g : KeyGen)
    (args : Args) (kwargs : Kwargs) :
    make_key name g args kwargs =
      String.intercalate ":" [ UNIQUE_KEY_PREFIX, name, g args kwargs] ∧
    make_key name g args kwargs =
      UNIQUE_KEY_PREFIX ++ ":" ++ name ++ ":" ++ g args kwargs ∧
    (∀ args' kwargs', args' = args → kwargs' = kwargs →
      make_key name g args' kwargs' = make_key name g args kwargs) := by
  refine ⟨?_, rfl, ?_⟩
  · simp [make_key, String.intercalate, String.intercalate.go, String.append_assoc]
  · intro args' kwargs' h1 h2
    rw [h1, h2]

/-- Witness for C4: the spec's worked example, with the source's actual
prefix constant. -/
theorem make_key_layout_witness :
    make_key "A_TASK_NAME" (fun _ _ => "A_UNIQUE_KEY") [] [] =
      String.intercalate ":" ["celery_unique", "A_TASK_NAME", "A_UNIQUE_KEY"] ∧
    make_key "A_TASK_NAME" (fun _ _ => "A_UNIQUE_KEY") [] [] =
      "celery_unique:A_TASK_NAME:A_UNIQUE_KEY" :=
  ⟨(make_key_layout_and_determinism "A_TASK_NAME" (fun _ _ => "A_UNIQUE_KEY")
      [] []).1,
   (make_key_layout_and_determinism "A_TASK_NAME" (fun _ _ => "A_UNIQUE_KEY")
      [] []).2.2 [] [] rfl rfl |>.trans (by decide)⟩

/-- C5: when the backend holds a task id under the key, the mixin's revoke
helper performs exactly one external cancel with that prior id followed by
the backend delete, ending in the backend's deleted state; when the backend
holds nothing it performs only the lookup — no cancel, no delete — and the
state is unchanged (and, being a total function, it does not raise).  For the
in-memory variant the deleted state indeed no longer holds the key. -/
theorem revoke_extant_task_spec {σ : Type} (api : Backend σ) (b : σ)
    (key : String) :
    (∀ tid, api.get_task_id b key = some tid →
      _revoke_extant_task api b key =
        (api.revoke_extant_task b key,
         [Event.backendGet key (some tid), Event.extRevoke tid,
          Event.backendDelete key])) ∧
    (api.get_task_id b key = none →
      _revoke_extant_task api b key = (b, [Event.backendGet key none])) ∧
    (∀ bm : InMemoryBackend,
      (InMemoryBackend.revoke_extant_task bm key).get_task_id key = none) := by
  refine ⟨?_, ?_, ?_⟩
  · intro tid h
    unfold _revoke_extant_task
    rw [h]
  · intro h
    unfold _revoke_extant_task
    rw [h]
  · intro bm
    exact dictGet_dictPop_self bm.tasks key

/-- Witness for C5: a store holding the key revokes and deletes; an empty
store only looks up. -/
theorem revoke_extant_task_spec_witness :
    _revoke_extant_task inMemoryBackendAPI
        (InMemoryBackend.mk [("K", "old-task")]) "K" =
      (inMemoryBackendAPI.revoke_extant_task
        (InMemoryBackend.mk [("K", "old-task")]) "K",
       [Event.backendGet "K" (some "old-task"), Event.extRevoke "old-task",
        Event.backendDelete "K"]) ∧
    _revoke_extant_task inMemoryBackendAPI (InMemoryBackend.mk []) "K" =
      (InMemoryBackend.mk [], [Event.backendGet "K" none]) :=
  ⟨(revoke_extant_task_spec inMemoryBackendAPI
      (InMemoryBackend.mk [("K", "old-task")]) "K").1 "old-task" (by decide),
   (revoke_extant_task_spec inMemoryBackendAPI (InMemoryBackend.mk []) "K").2.1
     (by decide)⟩

theorem revoke_state_no_key (b : InMemoryBackend) (key : String) :
    ∀ p ∈ (_revoke_extant_task inMemoryBackendAPI b key).1.tasks, p.1 ≠ key := by
  unfold _revoke_extant_task
  rcases hg : inMemoryBackendAPI.get_task_id b key with _ | tid0
  · intro p hp
    exact (dictGet_none_iff b.tasks key).mp hg p hp
  · intro p hp
    exact dictPop_no_key b.tasks key p hp

theorem revoke_state_keysNodup (b : InMemoryBackend) (key : String)
    (h : keysNodup b.tasks) :
    keysNodup ((_revoke_extant_task inMemoryBackendAPI b key).1.tasks) := by
  unfold _revoke_extant_task
  rcases hg : inMemoryBackendAPI.get_task_id b key with _ | tid0
  · exact h
  · exact keysNodup_dictPop b.tasks key h

/-- C6: after a qualifying dispatch through the in-memory variant the store
holds exactly one record for the derived key, its value is the task id the
underlying dispatch returned, and — starting from a store with no duplicate
keys — neither the intermediate post-revoke state nor the final state holds
more than one record per key. -/
theorem post_dispatch_record (name : String) (g : KeyGen) (b : InMemoryBackend)
    (args : Args) (kwargs : Kwargs) (o : TaskOptions) (now : Instant)
    (tid : String) (h : o.eta.isSome = true ∨ o.countdown.isSome = true) :
    ∃ b2 : InMemoryBackend,
      (apply_async inMemoryBackendAPI (Task.mk name (some g) (some b)) args
          kwargs o now tid).2.1.unique_backend = some b2 ∧
      b2.tasks.filter (fun p => p.1 = make_key name g args kwargs) =
        [(make_key name g args kwargs, tid)] ∧
      b2.get_task_id (make_key name g args kwargs) = some tid ∧
      (keysNodup b.tasks →
        keysNodup ((_revoke_extant_task inMemoryBackendAPI b
          (make_key name g args kwargs)).1.tasks) ∧
        keysNodup b2.tasks) := by
  have hq : _handle_as_unique (Task.mk name (some g) (some b)) o = true := by
    rcases h with h | h <;> simp [_handle_as_unique, h]
  refine ⟨InMemoryBackend.mk (dictSet
      ((_revoke_extant_task inMemoryBackendAPI b
        (make_key name g args kwargs)).1.tasks)
      (make_key name g args kwargs) tid), ?_, ?_, ?_, ?_⟩
  · unfold apply_async
    rw [dif_pos hq]
    rfl
  · exact filter_dictSet_self _ _ _ (revoke_state_no_key b _)
  · exact dictGet_dictSet_self _ _ _
  · intro hnd
    have hb1 := revoke_state_keysNodup b (make_key name g args kwargs) hnd
    exact ⟨hb1, keysNodup_dictSet _ _ _ hb1⟩

/-- Witness for C6: a qualifying countdown dispatch over a store already
holding an old task under the derived key. -/
theorem post_dispatch_record_witness :
    ∃ b2 : InMemoryBackend,
      (apply_async inMemoryBackendAPI
          (Task.mk "A_TASK_NAME" (some (fun _ _ => "A_UNIQUE_KEY"))
            (some (InMemoryBackend.mk
              [("celery_unique:A_TASK_NAME:A_UNIQUE_KEY", "old-task")]))) [] []
          (TaskOptions.mk none (some 100) none) 0 "task-3").2.1.unique_backend
        = some b2 ∧
      b2.tasks.filter (fun p => p.1 =
          make_key "A_TASK_NAME" (fun _ _ => "A_UNIQUE_KEY") [] []) =
        [(make_key "A_TASK_NAME" (fun _ _ => "A_UNIQUE_KEY") [] [], "task-3")] ∧
      b2.get_task_id (make_key "A_TASK_NAME" (fun _ _ => "A_UNIQUE_KEY") [] [])
        = some "task-3" ∧
      (keysNodup [("celery_unique:A_TASK_NAME:A_UNIQUE_KEY", "old-task")] →
        keysNodup ((_revoke_extant_task inMemoryBackendAPI
          (InMemoryBackend.mk
            [("celery_unique:A_TASK_NAME:A_UNIQUE_KEY", "old-task")])
          (make_key "A_TASK_NAME" (fun _ _ => "A_UNIQUE_KEY") [] [])).1.tasks) ∧
        keysNodup b2.tasks) :=
  post_dispatch_record "A_TASK_NAME" (fun _ _ => "A_UNIQUE_KEY")
    (InMemoryBackend.mk [("celery_unique:A_TASK_NAME:A_UNIQUE_KEY", "old-task")])
    [] [] (TaskOptions.mk none (some 100) none) 0 "task-3" (Or.inr rfl)

theorem dictPop_of_absent (d : List (String × String)) (k : String)
    (h : dictGet d k = none) : dictPop d k = d := by
  have hall := (dictGet_none_iff d k).mp h
  unfold dictPop
  rw [List.filter_eq_self]
  intro p hp
  simpa using hall p hp

/-- C7: for both backend variants, deleting an absent key is a no-op that
cannot fail, and doing it twice in a row leaves the store exactly as it was
(so an empty store stays empty both times). -/
theorem revoke_absent_noop_idempotent (key : String) :
    (∀ b : InMemoryBackend, b.get_task_id key = none →
      b.revoke_extant_task key = b ∧
      (b.revoke_extant_task key).revoke_extant_task key = b) ∧
    (∀ c : RedisClient, c.get key = none →
      (RedisBackend.mk c).revoke_extant_task key = RedisBackend.mk c ∧
      ((RedisBackend.mk c).revoke_extant_task key).revoke_extant_task key =
        RedisBackend.mk c) := by
  constructor
  · intro b hb
    have h1 : b.revoke_extant_task key = b := by
      show InMemoryBackend.mk (dictPop b.tasks key) = b
      rw [dictPop_of_absent b.tasks key hb]
    exact ⟨h1, by rw [h1, h1]⟩
  · intro c hc
    have h1 : (RedisBackend.mk c).revoke_extant_task key = RedisBackend.mk c := by
      show RedisBackend.mk (RedisClient.mk (dictPop c.data key)) = RedisBackend.mk c
      rw [dictPop_of_absent c.data key hc]
    exact ⟨h1, by rw [h1, h1]⟩

/-- Witness for C7: both variants, starting from the empty store. -/
theorem revoke_absent_noop_idempotent_witness :
    ((InMemoryBackend.mk []).revoke_extant_task "K" = InMemoryBackend.mk [] ∧
      ((InMemoryBackend.mk []).revoke_extant_task "K").revoke_extant_task "K" =
        InMemoryBackend.mk []) ∧
    ((RedisBackend.mk (RedisClient.mk [])).revoke_extant_task "K" =
        RedisBackend.mk (RedisClient.mk []) ∧
      ((RedisBackend.mk (RedisClient.mk [])).revoke_extant_task
          "K").revoke_extant_task "K" = RedisBackend.mk (RedisClient.mk [])) :=
  ⟨(revoke_absent_noop_idempotent "K").1 (InMemoryBackend.mk []) rfl,
   (revoke_absent_noop_idempotent "K").2 (RedisClient.mk []) rfl⟩

/-- C8: the in-memory variant accepts a TTL but never consults it — the
stored record is identical for any TTL, the task id is returned by lookups
however much later the store is observed, survives deletes of other keys,
and disappears only once `revoke_extant_task` removes the key itself. -/
theorem inmemory_ttl_never_enforced (b : InMemoryBackend) (key task_id : String)
    (ttl ttl' : Option Int) :
    b.create_task_record key task_id ttl = b.create_task_record key task_id ttl' ∧
    (b.create_task_record key task_id ttl).get_task_id key = some task_id ∧
    (∀ k', k' ≠ key →
      ((b.create_task_record key task_id ttl).revoke_extant_task k').get_task_id
        key = some task_id) ∧
    ((b.create_task_record key task_id ttl).revoke_extant_task key).get_task_id
      key = none := by
  refine ⟨rfl, dictGet_dictSet_self b.tasks key task_id, ?_,
    dictGet_dictPop_self _ key⟩
  intro k' hk'
  show dictGet (dictPop (dictSet b.tasks key task_id) k') key = some task_id
  rw [dictGet_dictPop_other _ key k' (Ne.symm hk'), dictGet_dictSet_self]

/-- Witness for C8: a record stored with `ttl = 1` is indistinguishable from
one stored with no TTL at all, and persists until its own key is revoked. -/
theorem inmemory_ttl_never_enforced_witness :
    (InMemoryBackend.mk []).create_task_record "K" "task-4" (some 1) =
      (InMemoryBackend.mk []).create_task_record "K" "task-4" none ∧
    ((InMemoryBackend.mk []).create_task_record "K" "task-4"
        (some 1)).get_task_id "K" = some "task-4" ∧
    (((InMemoryBackend.mk []).create_task_record "K" "task-4"
        (some 1)).revoke_extant_task "L").get_task_id "K" = some "task-4" ∧
    (((InMemoryBackend.mk []).create_task_record "K" "task-4"
        (some 1)).revoke_extant_task "K").get_task_id "K" = none :=
  have h := inmemory_ttl_never_enforced (InMemoryBackend.mk []) "K" "task-4"
    (some 1) none
  ⟨h.1, h.2.1, h.2.2.1 "L" (by decide), h.2.2.2⟩

/-- C10: the Redis variant's lookup decodes a stored non-empty value to text,
yields the absent sentinel without raising when the key is missing, and —
because the empty byte string is falsy — also yields the absent sentinel when
the stored value is empty, making an empty stored value indistinguishable
from absence. -/
theorem redis_get_task_id_falsy (c : RedisClient) (key : String) :
    (c.get key = none → (RedisBackend.mk c).get_task_id key = none) ∧
    (∀ v, c.get key = some v →
      (RedisBackend.mk c).get_task_id key = if v = "" then none else some v) ∧
    (RedisBackend.mk (RedisClient.mk [(key, "")])).get_task_id key = none := by
  refine ⟨?_, ?_, ?_⟩
  · intro h
    unfold RedisBackend.get_task_id
    rw [show (RedisBackend.mk c).redis_client.get key = c.get key from rfl, h]
  · intro v h
    unfold RedisBackend.get_task_id
    rw [show (RedisBackend.mk c).redis_client.get key = c.get key from rfl, h]
  · simp [RedisBackend.get_task_id, RedisClient.get, dictGet, List.find?_cons]

/-- Witness for C10: a stored non-empty id is returned; a stored empty value
reads back as absent. -/
theorem redis_get_task_id_falsy_witness :
    (RedisBackend.mk (RedisClient.mk [("K", "task-5")])).get_task_id "K" =
      some "task-5" ∧
    (RedisBackend.mk (RedisClient.mk [("K", "")])).get_task_id "K" = none :=
  ⟨((redis_get_task_id_falsy (RedisClient.mk [("K", "task-5")]) "K").2.1
      "task-5" (by decide)).trans (by decide),
   (redis_get_task_id_falsy (RedisClient.mk [("K", "")]) "K").2.2⟩

end CeleryUnique
